import Mathlib

/-
Shallow embedding of the order-management core of the pet_food repository
(src/src/controllers/order.controller.ts), together with the supporting data
model its claims need.  The database is an explicit record of entity tables;
the sequelize transaction of `createOrder` is modelled with `Except`: an error
result means the transaction was rolled back and the store is unchanged, an
`ok` result carries the committed store (spec section 4.4, Transactional
Committer — src/util/db.ts itself is not part of the sources).
-/

namespace PetFood

/-- Catalog food entity (src/models/foods): a row with a numeric id and a
unique display name, read-only for this core. -/
structure Food where
  id : Nat
  name : String
deriving DecidableEq, Repr

/-- Catalog place entity (src/models/places): a row with a numeric id and a
unique display name, read-only for this core. -/
structure Place where
  id : Nat
  name : String
deriving DecidableEq, Repr

/-- Requesting user entity (src/models/users): only the primary key matters
to the controller. -/
structure User where
  id : Nat
deriving DecidableEq, Repr

/-- Order lifecycle status enum (src/models/orders `OrderStatus`); the spec
lists the four states CREATED, RUNNING, COMPLETED, FAILED. -/
inductive OrderStatus
  | CREATED
  | RUNNING
  | COMPLETED
  | FAILED
deriving DecidableEq, Repr

/-- Persisted order (src/models/orders): primary key `uuid`, current status
and the owning user reference. -/
structure Order where
  uuid : String
  status : OrderStatus
  userId : Nat
deriving DecidableEq, Repr

/-- Persisted food line item (src/models/order_details): belongs to one order
and references one catalog food. -/
structure OrderDetail where
  orderUuid : String
  quantity : Int
  foodId : Nat
  withdrawal_order : Int
deriving DecidableEq, Repr

/-- Persisted delivery line item (src/models/order_places): belongs to one
order and references one catalog place. -/
structure OrderPlace where
  orderUuid : String
  placeId : Nat
  quantity_to_deliver : Int
deriving DecidableEq, Repr

/-- The database state: one table per entity.  `findOne`/`findByPk` queries
are embedded as `List.find?` over the table. -/
structure DB where
  users : List User
  foods : List Food
  places : List Place
  orders : List Order
  orderDetails : List OrderDetail
  orderPlaces : List OrderPlace
deriving DecidableEq, Repr

/-- Error taxonomy (src/errors/httpErrors `ErrorEnum`), restricted to the
members the controller raises. -/
inductive ErrorEnum
  | ORDER_NOT_FOUND
  | PARAM_NOT_VALID
  | QUANTITIES_DO_NOT_MATCH
  | ORDER_ALREADY_STARTED
  | WS_NOT_AVAILABLE
  | INTERNAL_SERVER_ERROR
deriving DecidableEq, Repr

/-- Request item for one food line (src/util/parametersInterface
`OrderDetailCreateModel`): a display name, a quantity and the withdrawal
sequencing hint. -/
structure OrderDetailCreateModel where
  name : String
  quantity : Int
  withdrawal_order : Int
deriving DecidableEq, Repr

/-- Request item for one delivery line (src/util/parametersInterface
`OrderPlaceCreateModel`): a display name and the quantity to deliver. -/
structure OrderPlaceCreateModel where
  name : String
  quantity_to_deliver : Int
deriving DecidableEq, Repr

/-- Sum of the requested food quantities, the `sumWithdrawal` accumulator of
`createOrder`. -/
def sumFoodQuantities (foods : List OrderDetailCreateModel) : Int :=
  foods.foldr (fun item s => item.quantity + s) 0

/-- Sum of the requested delivery quantities, the `sumDeliver` accumulator of
`createOrder`. -/
def sumPlaceQuantities (places : List OrderPlaceCreateModel) : Int :=
  places.foldr (fun item s => item.quantity_to_deliver + s) 0

/-- The `for (const food of foods)` loop of `createOrder`: resolve each name
with `Food.findOne({where: {name}})`; a missing name aborts with
PARAM_NOT_VALID, otherwise an OrderDetail row is staged and the quantity
accumulated. -/
def buildOrderDetails (catalog : List Food) (orderUuid : String) :
    List OrderDetailCreateModel → Except ErrorEnum (List OrderDetail × Int)
  | [] => Except.ok ([], 0)
  | item :: rest =>
    match catalog.find? (fun f => f.name = item.name) with
    | none => Except.error ErrorEnum.PARAM_NOT_VALID
    | some f =>
      match buildOrderDetails catalog orderUuid rest with
      | Except.error e => Except.error e
      | Except.ok (rows, s) =>
        Except.ok
          ({ orderUuid := orderUuid, quantity := item.quantity,
             foodId := f.id, withdrawal_order := item.withdrawal_order } :: rows,
           item.quantity + s)

/-- The `for (const place of places)` loop of `createOrder`: resolve each name
with `Place.findOne({where: {name}})`; a missing name aborts with
PARAM_NOT_VALID, otherwise an OrderPlace row is staged and the quantity
accumulated. -/
def buildOrderPlaces (catalog : List Place) (orderUuid : String) :
    List OrderPlaceCreateModel → Except ErrorEnum (List OrderPlace × Int)
  | [] => Except.ok ([], 0)
  | item :: rest =>
    match catalog.find? (fun p => p.name = item.name) with
    | none => Except.error ErrorEnum.PARAM_NOT_VALID
    | some p =>
      match buildOrderPlaces catalog orderUuid rest with
      | Except.error e => Except.error e
      | Except.ok (rows, s) =>
        Except.ok
          ({ orderUuid := orderUuid, placeId := p.id,
             quantity_to_deliver := item.quantity_to_deliver } :: rows,
           item.quantity_to_deliver + s)

/-- The `createOrder` controller.  `newUuid` stands for the uuid sequelize
generates for the new order.  Workflow, as in the source: look up the
requester (missing gives INTERNAL_SERVER_ERROR), stage the order shell in
status CREATED, run both item loops, compare the two sums
(`sumDeliver !== sumWithdrawal` gives QUANTITIES_DO_NOT_MATCH), then commit.
An error result is a rolled-back transaction: nothing is persisted. -/
def createOrder (db : DB) (requesterId : Nat)
    (foods : List OrderDetailCreateModel) (places : List OrderPlaceCreateModel)
    (newUuid : String) : Except ErrorEnum DB :=
  match db.users.find? (fun u => u.id = requesterId) with
  | none => Except.error ErrorEnum.INTERNAL_SERVER_ERROR
  | some user =>
    let order : Order := { uuid := newUuid, status := OrderStatus.CREATED, userId := user.id }
    match buildOrderDetails db.foods newUuid foods with
    | Except.error e => Except.error e
    | Except.ok (detailRows, sumWithdrawal) =>
      match buildOrderPlaces db.places newUuid places with
      | Except.error e => Except.error e
      | Except.ok (placeRows, sumDeliver) =>
        if sumDeliver ≠ sumWithdrawal then
          Except.error ErrorEnum.QUANTITIES_DO_NOT_MATCH
        else
          Except.ok { db with
            orders := db.orders ++ [order],
            orderDetails := db.orderDetails ++ detailRows,
            orderPlaces := db.orderPlaces ++ placeRows }

/-- Persistent store visible after `createOrder` returns: the committed store
on success, the unchanged input store after a rollback. -/
def createOrderPostState (db : DB) (requesterId : Nat)
    (foods : List OrderDetailCreateModel) (places : List OrderPlaceCreateModel)
    (newUuid : String) : DB :=
  match createOrder db requesterId foods places newUuid with
  | Except.ok db2 => db2
  | Except.error _ => db

/-- The `switch (order.status)` of `getOrderStatus`, mapping the enum to its
display label. -/
def statusLabel : OrderStatus → String
  | OrderStatus.CREATED => "Created"
  | OrderStatus.FAILED => "Failed"
  | OrderStatus.RUNNING => "Running"
  | OrderStatus.COMPLETED => "Completed"

/-- The `getOrderStatus` controller: a pure read that finds the order by uuid
and returns the display label of its status, or ORDER_NOT_FOUND. -/
def getOrderStatus (db : DB) (uuid : String) : Except ErrorEnum String :=
  match db.orders.find? (fun o => o.uuid = uuid) with
  | none => Except.error ErrorEnum.ORDER_NOT_FOUND
  | some order => Except.ok (statusLabel order.status)

/-- Message kind tag. Modelled from the spec: src/websockets/messageFactory.ts
is not among the sources; section 4.5 requires the notification to be tagged
with an "execute order" message kind. -/
inductive MessageType
  | EXECUTE_ORDER
deriving DecidableEq, Repr

/-- Full order payload carried by the notification (the order joined with its
line items, as fetched by `findByPk` with `include`). -/
structure OrderPayload where
  order : Order
  details : List OrderDetail
  placeRows : List OrderPlace
deriving DecidableEq, Repr

/-- Notification event. Modelled from the spec: the channel accepts
`(messageKind, orderUuid, payload)` triples (section 6). -/
structure Message where
  msgType : MessageType
  orderUuid : String
  payload : OrderPayload
deriving DecidableEq, Repr

/-- The joined payload `{...order.toJSON()}` of `executeOrder`: the order row
together with its associated line items. -/
def orderPayload (db : DB) (order : Order) : OrderPayload :=
  { order := order,
    details := db.orderDetails.filter (fun d => d.orderUuid = order.uuid),
    placeRows := db.orderPlaces.filter (fun p => p.orderUuid = order.uuid) }

/-- The `executeOrder` controller.  `observed` is the
`executedOrderStream$.observed` flag (whether the notification channel
currently has a subscriber).  The result triple is (HTTP outcome, store after
the call, events published on the channel).  The source performs no write, so
the store component is always the input store. -/
def executeOrder (db : DB) (uuid : String) (observed : Bool) :
    Except ErrorEnum Unit × DB × List Message :=
  match db.orders.find? (fun o => o.uuid = uuid) with
  | none => (Except.error ErrorEnum.ORDER_NOT_FOUND, db, [])
  | some order =>
    if order.status ≠ OrderStatus.CREATED then
      (Except.error ErrorEnum.ORDER_ALREADY_STARTED, db, [])
    else if observed = false then
      (Except.error ErrorEnum.WS_NOT_AVAILABLE, db, [])
    else
      (Except.ok (), db,
       [{ msgType := MessageType.EXECUTE_ORDER, orderUuid := order.uuid,
          payload := orderPayload db order }])

/-- The `updateOrderStatus` function: find the order by primary key and
overwrite its status with the given value, with no guard on the transition.
`Order.findByPk` returning null makes the `order!.update` dereference throw;
that thrown path is modelled as `none`. -/
def updateOrderStatus (db : DB) (uuid : String) (newStatus : OrderStatus) : Option DB :=
  match db.orders.find? (fun o => o.uuid = uuid) with
  | none => none
  | some _ =>
    some { db with
      orders := db.orders.map
        (fun o => if o.uuid = uuid then { o with status := newStatus } else o) }

/- Concrete stores and requests used by the witnesses and counterexamples. -/

/-- Store with one user and the catalog of the round-trip scenario of the
spec (section 8). -/
def db0 : DB :=
  { users := [{ id := 1 }],
    foods := [{ id := 10, name := "bread" }],
    places := [{ id := 20, name := "table1" }],
    orders := [], orderDetails := [], orderPlaces := [] }

/-- Request line `foods=[{"bread",2}]` of the round-trip scenario. -/
def foodsReq : List OrderDetailCreateModel :=
  [{ name := "bread", quantity := 2, withdrawal_order := 1 }]

/-- Request line `places=[{"table1",2}]` of the round-trip scenario. -/
def placesReq : List OrderPlaceCreateModel :=
  [{ name := "table1", quantity_to_deliver := 2 }]

/-- Food request whose quantity sum is 3, used for the mismatch scenario. -/
def foodsReq3 : List OrderDetailCreateModel :=
  [{ name := "bread", quantity := 3, withdrawal_order := 1 }]

/-- Place request whose name resolves to nothing in db0's catalog. -/
def placesBad : List OrderPlaceCreateModel :=
  [{ name := "nowhere", quantity_to_deliver := 2 }]

/-- Store with one user and an empty catalog: every name is unresolvable. -/
def dbEmptyCatalog : DB :=
  { users := [{ id := 1 }], foods := [], places := [],
    orders := [], orderDetails := [], orderPlaces := [] }

/-- Store with no user at all. -/
def dbNoUser : DB :=
  { users := [], foods := [], places := [],
    orders := [], orderDetails := [], orderPlaces := [] }

/-- Store holding one order in status RUNNING. -/
def dbRunning : DB :=
  { users := [{ id := 1 }], foods := [], places := [],
    orders := [{ uuid := "o1", status := OrderStatus.RUNNING, userId := 1 }],
    orderDetails := [], orderPlaces := [] }

/-- Store holding one order in status CREATED. -/
def dbCreated : DB :=
  { users := [{ id := 1 }], foods := [], places := [],
    orders := [{ uuid := "o1", status := OrderStatus.CREATED, userId := 1 }],
    orderDetails := [], orderPlaces := [] }

/- Helper lemmas about the two item loops and the uuid lookup. -/

/-- An error leaving the food loop is always PARAM_NOT_VALID. -/
theorem buildOrderDetails_error_eq {catalog : List Food} {uuid : String} :
    ∀ {items : List OrderDetailCreateModel} {e : ErrorEnum},
      buildOrderDetails catalog uuid items = Except.error e →
      e = ErrorEnum.PARAM_NOT_VALID := by
  intro items
  induction items with
  | nil => intro e h; simp [buildOrderDetails] at h
  | cons item rest ih =>
    intro e h
    rw [buildOrderDetails] at h
    cases hf : catalog.find? (fun f => f.name = item.name) with
    | none => simp only [hf] at h; cases h; rfl
    | some f =>
      simp only [hf] at h
      cases hr : buildOrderDetails catalog uuid rest with
      | error e2 => simp only [hr] at h; cases h; exact ih hr
      | ok rs => obtain ⟨rows, s⟩ := rs; simp only [hr] at h; cases h

/-- An error leaving the place loop is always PARAM_NOT_VALID. -/
theorem buildOrderPlaces_error_eq {catalog : List Place} {uuid : String} :
    ∀ {items : List OrderPlaceCreateModel} {e : ErrorEnum},
      buildOrderPlaces catalog uuid items = Except.error e →
      e = ErrorEnum.PARAM_NOT_VALID := by
  intro items
  induction items with
  | nil => intro e h; simp [buildOrderPlaces] at h
  | cons item rest ih =>
    intro e h
    rw [buildOrderPlaces] at h
    cases hp : catalog.find? (fun p => p.name = item.name) with
    | none => simp only [hp] at h; cases h; rfl
    | some p =>
      simp only [hp] at h
      cases hr : buildOrderPlaces catalog uuid rest with
      | error e2 => simp only [hr] at h; cases h; exact ih hr
      | ok rs => obtain ⟨rows, s⟩ := rs; simp only [hr] at h; cases h

/-- When every food name resolves, the food loop succeeds, returns the running
quantity sum, and stages one row per request item, each row tied to the order
and to the catalog entry the name resolved to. -/
theorem buildOrderDetails_sound {catalog : List Food} {uuid : String} :
    ∀ {items : List OrderDetailCreateModel},
      (∀ i ∈ items, (catalog.find? (fun f => f.name = i.name)).isSome) →
      ∃ rows, buildOrderDetails catalog uuid items =
          Except.ok (rows, sumFoodQuantities items) ∧
        List.Forall₂ (fun (i : OrderDetailCreateModel) (r : OrderDetail) =>
          r.orderUuid = uuid ∧ r.quantity = i.quantity ∧
          r.withdrawal_order = i.withdrawal_order ∧
          ∃ f, catalog.find? (fun x => x.name = i.name) = some f ∧ r.foodId = f.id)
          items rows := by
  intro items
  induction items with
  | nil => exact fun _ => ⟨[], rfl, List.Forall₂.nil⟩
  | cons item rest ih =>
    intro h
    obtain ⟨f, hf⟩ := Option.isSome_iff_exists.mp (h item (List.mem_cons_self item rest))
    obtain ⟨rows, hrows, hall⟩ := ih (fun i hi => h i (List.mem_cons_of_mem item hi))
    refine ⟨{ orderUuid := uuid, quantity := item.quantity, foodId := f.id,
              withdrawal_order := item.withdrawal_order } :: rows, ?_,
            List.Forall₂.cons ⟨rfl, rfl, rfl, f, hf, rfl⟩ hall⟩
    rw [buildOrderDetails, hf, hrows]
    rfl

/-- When every place name resolves, the place loop succeeds, returns the
running quantity sum, and stages one row per request item, each row tied to
the order and to the catalog entry the name resolved to. -/
theorem buildOrderPlaces_sound {catalog : List Place} {uuid : String} :
    ∀ {items : List OrderPlaceCreateModel},
      (∀ i ∈ items, (catalog.find? (fun p => p.name = i.name)).isSome) →
      ∃ rows, buildOrderPlaces catalog uuid items =
          Except.ok (rows, sumPlaceQuantities items) ∧
        List.Forall₂ (fun (i : OrderPlaceCreateModel) (r : OrderPlace) =>
          r.orderUuid = uuid ∧ r.quantity_to_deliver = i.quantity_to_deliver ∧
          ∃ p, catalog.find? (fun x => x.name = i.name) = some p ∧ r.placeId = p.id)
          items rows := by
  intro items
  induction items with
  | nil => exact fun _ => ⟨[], rfl, List.Forall₂.nil⟩
  | cons item rest ih =>
    intro h
    obtain ⟨p, hp⟩ := Option.isSome_iff_exists.mp (h item (List.mem_cons_self item rest))
    obtain ⟨rows, hrows, hall⟩ := ih (fun i hi => h i (List.mem_cons_of_mem item hi))
    refine ⟨{ orderUuid := uuid, placeId := p.id,
              quantity_to_deliver := item.quantity_to_deliver } :: rows, ?_,
            List.Forall₂.cons ⟨rfl, rfl, p, hp, rfl⟩ hall⟩
    rw [buildOrderPlaces, hp, hrows]
    rfl

/-- An unresolvable food name anywhere in the list makes the food loop abort
with PARAM_NOT_VALID. -/
theorem buildOrderDetails_bad {catalog : List Food} {uuid : String} :
    ∀ {items : List OrderDetailCreateModel},
      (∃ i ∈ items, catalog.find? (fun f => f.name = i.name) = none) →
      buildOrderDetails catalog uuid items = Except.error ErrorEnum.PARAM_NOT_VALID := by
  intro items
  induction items with
  | nil => rintro ⟨i, hi, -⟩; exact absurd hi (List.not_mem_nil i)
  | cons item rest ih =>
    rintro ⟨i, hi, hnone⟩
    rw [buildOrderDetails]
    rcases List.mem_cons.mp hi with rfl | hmem
    · rw [hnone]
    · cases hf : catalog.find? (fun f => f.name = item.name) with
      | none => rfl
      | some f => rw [ih ⟨i, hmem, hnone⟩]

/-- An unresolvable place name anywhere in the list makes the place loop abort
with PARAM_NOT_VALID. -/
theorem buildOrderPlaces_bad {catalog : List Place} {uuid : String} :
    ∀ {items : List OrderPlaceCreateModel},
      (∃ i ∈ items, catalog.find? (fun p => p.name = i.name) = none) →
      buildOrderPlaces catalog uuid items = Except.error ErrorEnum.PARAM_NOT_VALID := by
  intro items
  induction items with
  | nil => rintro ⟨i, hi, -⟩; exact absurd hi (List.not_mem_nil i)
  | cons item rest ih =>
    rintro ⟨i, hi, hnone⟩
    rw [buildOrderPlaces]
    rcases List.mem_cons.mp hi with rfl | hmem
    · rw [hnone]
    · cases hp : catalog.find? (fun p => p.name = item.name) with
      | none => rfl
      | some p => rw [ih ⟨i, hmem, hnone⟩]

/-- Looking up a uuid after overwriting that uuid's status finds the same row
with the new status. -/
theorem find?_map_setStatus (uuid : String) (st : OrderStatus) :
    ∀ l : List Order,
      (l.map (fun o => if o.uuid = uuid then { o with status := st } else o)).find?
        (fun o => o.uuid = uuid) =
      (l.find? (fun o => o.uuid = uuid)).map
        (fun o => if o.uuid = uuid then { o with status := st } else o)
  | [] => rfl
  | o :: rest => by
    by_cases h : o.uuid = uuid
    · simp [List.find?_cons, h]
    · simp [List.find?_cons, h, find?_map_setStatus uuid st rest]

/-- The store component of an executeOrder result is always the input store:
the source performs no write on any of its paths. -/
theorem executeOrder_db_eq (db : DB) (u : String) (obs : Bool) :
    ((executeOrder db u obs).2).1 = db := by
  rw [executeOrder]
  cases hfind : db.orders.find? (fun o => o.uuid = u) with
  | none => rfl
  | some o =>
    by_cases hst : o.status ≠ OrderStatus.CREATED
    · simp [hst]
    · by_cases hobs : obs = false
      · simp [hst, hobs]
      · simp [hst, hobs]

/-- A committed createOrder run appends exactly one order, in status CREATED
under the requested uuid, to the order table. -/
theorem createOrder_ok_orders {db : DB} {rid : Nat}
    {foods : List OrderDetailCreateModel} {places : List OrderPlaceCreateModel}
    {newUuid : String} {db2 : DB}
    (h : createOrder db rid foods places newUuid = Except.ok db2) :
    ∃ uid, db2.orders = db.orders ++
      [{ uuid := newUuid, status := OrderStatus.CREATED, userId := uid }] := by
  rw [createOrder] at h
  cases hu : db.users.find? (fun u => u.id = rid) with
  | none => simp only [hu] at h; cases h
  | some u =>
    simp only [hu] at h
    cases hd : buildOrderDetails db.foods newUuid foods with
    | error e => simp only [hd] at h; cases h
    | ok rs =>
      obtain ⟨drows, sw⟩ := rs
      simp only [hd] at h
      cases hp : buildOrderPlaces db.places newUuid places with
      | error e => simp only [hp] at h; cases h
      | ok rs2 =>
        obtain ⟨prows, sd⟩ := rs2
        simp only [hp] at h
        by_cases hne : sd ≠ sw
        · rw [if_pos hne] at h; cases h
        · rw [if_neg hne] at h; cases h; exact ⟨u.id, rfl⟩

/-- Reading the status right after updateOrderStatus succeeded returns the
label of the status just written. -/
theorem updateOrderStatus_readback {db : DB} {uuid : String} {st : OrderStatus}
    {db2 : DB} (h : updateOrderStatus db uuid st = some db2) :
    getOrderStatus db2 uuid = Except.ok (statusLabel st) := by
  cases hf : db.orders.find? (fun o => o.uuid = uuid) with
  | none => rw [updateOrderStatus] at h; simp only [hf] at h; cases h
  | some o =>
    have houuid : o.uuid = uuid :=
      of_decide_eq_true (@List.find?_some Order (fun x => decide (x.uuid = uuid)) o db.orders hf)
    rw [updateOrderStatus] at h
    simp only [hf, Option.some.injEq] at h
    subst h
    simp [getOrderStatus, find?_map_setStatus uuid st db.orders, hf, houuid]

/- Claim theorems. -/

/-- C1: a creation request whose requester exists, whose food and place names
all resolve in the catalog, and whose food-quantity sum equals its
place-quantity sum succeeds and persists exactly one new Order in status
CREATED owned by the requester, together with one OrderDetail row per food
item and one OrderPlace row per place item, each row referencing that order
and the catalog entry its name resolved to. -/
theorem createOrder_success (db : DB) (rid : Nat)
    (foods : List OrderDetailCreateModel) (places : List OrderPlaceCreateModel)
    (newUuid : String)
    (huser : (db.users.find? (fun u => u.id = rid)).isSome)
    (hfoods : ∀ i ∈ foods, (db.foods.find? (fun f => f.name = i.name)).isSome)
    (hplaces : ∀ i ∈ places, (db.places.find? (fun p => p.name = i.name)).isSome)
    (hsum : sumFoodQuantities foods = sumPlaceQuantities places) :
    ∃ detailRows placeRows,
      createOrder db rid foods places newUuid =
        Except.ok { db with
          orders := db.orders ++
            [{ uuid := newUuid, status := OrderStatus.CREATED, userId := rid }],
          orderDetails := db.orderDetails ++ detailRows,
          orderPlaces := db.orderPlaces ++ placeRows } ∧
      detailRows.length = foods.length ∧
      placeRows.length = places.length ∧
      List.Forall₂ (fun (i : OrderDetailCreateModel) (r : OrderDetail) =>
        r.orderUuid = newUuid ∧ r.quantity = i.quantity ∧
        r.withdrawal_order = i.withdrawal_order ∧
        ∃ f, db.foods.find? (fun x => x.name = i.name) = some f ∧ r.foodId = f.id)
        foods detailRows ∧
      List.Forall₂ (fun (i : OrderPlaceCreateModel) (r : OrderPlace) =>
        r.orderUuid = newUuid ∧ r.quantity_to_deliver = i.quantity_to_deliver ∧
        ∃ p, db.places.find? (fun x => x.name = i.name) = some p ∧ r.placeId = p.id)
        places placeRows := by
  obtain ⟨u, hu⟩ := Option.isSome_iff_exists.mp huser
  have huid : u.id = rid :=
    of_decide_eq_true (@List.find?_some User (fun x => decide (x.id = rid)) u db.users hu)
  obtain ⟨drows, hdrows, hdall⟩ := @buildOrderDetails_sound db.foods newUuid foods hfoods
  obtain ⟨prows, hprows, hpall⟩ := @buildOrderPlaces_sound db.places newUuid places hplaces
  refine ⟨drows, prows, ?_, (List.Forall₂.length_eq hdall).symm,
          (List.Forall₂.length_eq hpall).symm, hdall, hpall⟩
  simp only [createOrder, hu, hdrows, hprows, huid]
  rw [if_neg (show ¬sumPlaceQuantities places ≠ sumFoodQuantities foods from
        fun hne => hne hsum.symm)]

/-- C1 witness: the round-trip request foods=[("bread",2)], places=[("table1",2)]
on the concrete store db0, where user 1 exists and both names resolve. -/
theorem createOrder_success_witness :
    (db0.users.find? (fun u => u.id = 1)).isSome ∧
    (∀ i ∈ foodsReq, (db0.foods.find? (fun f => f.name = i.name)).isSome) ∧
    (∀ i ∈ placesReq, (db0.places.find? (fun p => p.name = i.name)).isSome) ∧
    sumFoodQuantities foodsReq = sumPlaceQuantities placesReq ∧
    (∃ detailRows placeRows,
      createOrder db0 1 foodsReq placesReq "u1" =
        Except.ok { db0 with
          orders := db0.orders ++
            [{ uuid := "u1", status := OrderStatus.CREATED, userId := 1 }],
          orderDetails := db0.orderDetails ++ detailRows,
          orderPlaces := db0.orderPlaces ++ placeRows } ∧
      detailRows.length = foodsReq.length ∧
      placeRows.length = placesReq.length ∧
      List.Forall₂ (fun (i : OrderDetailCreateModel) (r : OrderDetail) =>
        r.orderUuid = "u1" ∧ r.quantity = i.quantity ∧
        r.withdrawal_order = i.withdrawal_order ∧
        ∃ f, db0.foods.find? (fun x => x.name = i.name) = some f ∧ r.foodId = f.id)
        foodsReq detailRows ∧
      List.Forall₂ (fun (i : OrderPlaceCreateModel) (r : OrderPlace) =>
        r.orderUuid = "u1" ∧ r.quantity_to_deliver = i.quantity_to_deliver ∧
        ∃ p, db0.places.find? (fun x => x.name = i.name) = some p ∧ r.placeId = p.id)
        placesReq placeRows) :=
  ⟨by decide, by decide, by decide, by decide,
   createOrder_success db0 1 foodsReq placesReq "u1"
     (by decide) (by decide) (by decide) (by decide)⟩

/-- C2 counterexample: a creation request whose quantity sums differ (3
against 0) but whose food name does not resolve fails with PARAM_NOT_VALID,
not with QUANTITIES_DO_NOT_MATCH, so quantity mismatch alone does not
determine the surfaced error. -/
theorem createOrder_mismatch_cex :
    sumFoodQuantities foodsReq3 ≠ sumPlaceQuantities ([] : List OrderPlaceCreateModel) ∧
    createOrder dbEmptyCatalog 1 foodsReq3 [] "u1" =
      Except.error ErrorEnum.PARAM_NOT_VALID ∧
    ErrorEnum.PARAM_NOT_VALID ≠ ErrorEnum.QUANTITIES_DO_NOT_MATCH :=
  ⟨by decide, by rfl, by decide⟩

/-- C2 amended: provided the requester exists and every food and place name
resolves, a creation request whose food-quantity sum differs from its
place-quantity sum fails with QUANTITIES_DO_NOT_MATCH and persists nothing:
the post-call store is the input store, and a post-call read of the
attempted (fresh) uuid returns ORDER_NOT_FOUND. -/
theorem createOrder_quantity_mismatch (db : DB) (rid : Nat)
    (foods : List OrderDetailCreateModel) (places : List OrderPlaceCreateModel)
    (newUuid : String)
    (huser : (db.users.find? (fun u => u.id = rid)).isSome)
    (hfoods : ∀ i ∈ foods, (db.foods.find? (fun f => f.name = i.name)).isSome)
    (hplaces : ∀ i ∈ places, (db.places.find? (fun p => p.name = i.name)).isSome)
    (hsum : sumFoodQuantities foods ≠ sumPlaceQuantities places)
    (hfresh : db.orders.find? (fun o => o.uuid = newUuid) = none) :
    createOrder db rid foods places newUuid =
      Except.error ErrorEnum.QUANTITIES_DO_NOT_MATCH ∧
    createOrderPostState db rid foods places newUuid = db ∧
    getOrderStatus (createOrderPostState db rid foods places newUuid) newUuid =
      Except.error ErrorEnum.ORDER_NOT_FOUND := by
  obtain ⟨u, hu⟩ := Option.isSome_iff_exists.mp huser
  obtain ⟨drows, hdrows, -⟩ := @buildOrderDetails_sound db.foods newUuid foods hfoods
  obtain ⟨prows, hprows, -⟩ := @buildOrderPlaces_sound db.places newUuid places hplaces
  have hmain : createOrder db rid foods places newUuid =
      Except.error ErrorEnum.QUANTITIES_DO_NOT_MATCH := by
    simp only [createOrder, hu, hdrows, hprows]
    rw [if_pos (fun h : sumPlaceQuantities places = sumFoodQuantities foods =>
          hsum h.symm)]
  have hpost : createOrderPostState db rid foods places newUuid = db := by
    rw [createOrderPostState, hmain]
  refine ⟨hmain, hpost, ?_⟩
  rw [hpost, getOrderStatus, hfresh]

/-- C2 witness: request foods=[("bread",3)], places=[("table1",2)] on db0 —
requester 1 exists, both names resolve, sums 3 and 2 differ, uuid "u1" is
fresh — so the call fails with QUANTITIES_DO_NOT_MATCH and the store is
untouched. -/
theorem createOrder_quantity_mismatch_witness :
    (db0.users.find? (fun u => u.id = 1)).isSome ∧
    (∀ i ∈ foodsReq3, (db0.foods.find? (fun f => f.name = i.name)).isSome) ∧
    (∀ i ∈ placesReq, (db0.places.find? (fun p => p.name = i.name)).isSome) ∧
    sumFoodQuantities foodsReq3 ≠ sumPlaceQuantities placesReq ∧
    db0.orders.find? (fun o => o.uuid = "u1") = none ∧
    (createOrder db0 1 foodsReq3 placesReq "u1" =
      Except.error ErrorEnum.QUANTITIES_DO_NOT_MATCH ∧
    createOrderPostState db0 1 foodsReq3 placesReq "u1" = db0 ∧
    getOrderStatus (createOrderPostState db0 1 foodsReq3 placesReq "u1") "u1" =
      Except.error ErrorEnum.ORDER_NOT_FOUND) :=
  ⟨by decide, by decide, by decide, by decide, by decide,
   createOrder_quantity_mismatch db0 1 foodsReq3 placesReq "u1"
     (by decide) (by decide) (by decide) (by decide) (by decide)⟩

/-- C3 counterexample: a creation request containing an unresolvable food
name but whose requester does not exist fails with INTERNAL_SERVER_ERROR,
not with PARAM_NOT_VALID: an unresolvable name alone does not determine the
surfaced error. -/
theorem createOrder_unresolved_cex :
    (∃ i ∈ foodsReq3, dbNoUser.foods.find? (fun f => f.name = i.name) = none) ∧
    createOrder dbNoUser 1 foodsReq3 [] "u1" =
      Except.error ErrorEnum.INTERNAL_SERVER_ERROR ∧
    ErrorEnum.INTERNAL_SERVER_ERROR ≠ ErrorEnum.PARAM_NOT_VALID :=
  ⟨by decide, by rfl, by decide⟩

/-- C3 amended: provided the requester exists, a creation request containing
at least one unresolvable food or place name — at any position of either
list — fails with PARAM_NOT_VALID and persists nothing: the post-call store
is the input store (the order shell and any staged rows are discarded) and a
post-call read of the attempted (fresh) uuid returns ORDER_NOT_FOUND. -/
theorem createOrder_unresolved_name (db : DB) (rid : Nat)
    (foods : List OrderDetailCreateModel) (places : List OrderPlaceCreateModel)
    (newUuid : String)
    (huser : (db.users.find? (fun u => u.id = rid)).isSome)
    (hbad : (∃ i ∈ foods, db.foods.find? (fun f => f.name = i.name) = none) ∨
            (∃ i ∈ places, db.places.find? (fun p => p.name = i.name) = none))
    (hfresh : db.orders.find? (fun o => o.uuid = newUuid) = none) :
    createOrder db rid foods places newUuid = Except.error ErrorEnum.PARAM_NOT_VALID ∧
    createOrderPostState db rid foods places newUuid = db ∧
    getOrderStatus (createOrderPostState db rid foods places newUuid) newUuid =
      Except.error ErrorEnum.ORDER_NOT_FOUND := by
  obtain ⟨u, hu⟩ := Option.isSome_iff_exists.mp huser
  have hmain : createOrder db rid foods places newUuid =
      Except.error ErrorEnum.PARAM_NOT_VALID := by
    by_cases hbadf : ∃ i ∈ foods, db.foods.find? (fun f => f.name = i.name) = none
    · simp only [createOrder, hu, buildOrderDetails_bad hbadf]
    · have hbadp : ∃ i ∈ places, db.places.find? (fun p => p.name = i.name) = none :=
        hbad.resolve_left hbadf
      have hallf : ∀ i ∈ foods, (db.foods.find? (fun f => f.name = i.name)).isSome := by
        intro i hi
        rcases hop : db.foods.find? (fun f => f.name = i.name) with - | f
        · exact absurd ⟨i, hi, hop⟩ hbadf
        · rw [hop]; rfl
      obtain ⟨drows, hdrows, -⟩ := @buildOrderDetails_sound db.foods newUuid foods hallf
      simp only [createOrder, hu, hdrows, buildOrderPlaces_bad hbadp]
  have hpost : createOrderPostState db rid foods places newUuid = db := by
    rw [createOrderPostState, hmain]
  refine ⟨hmain, hpost, ?_⟩
  rw [hpost, getOrderStatus, hfresh]

/-- C3 witness: request foods=[("bread",2)], places=[("nowhere",2)] on db0 —
requester 1 exists, the food name resolves but the place name does not, uuid
"u1" is fresh — so the call fails with PARAM_NOT_VALID and the store is
untouched. -/
theorem createOrder_unresolved_name_witness :
    (db0.users.find? (fun u => u.id = 1)).isSome ∧
    ((∃ i ∈ foodsReq, db0.foods.find? (fun f => f.name = i.name) = none) ∨
     (∃ i ∈ placesBad, db0.places.find? (fun p => p.name = i.name) = none)) ∧
    db0.orders.find? (fun o => o.uuid = "u1") = none ∧
    (createOrder db0 1 foodsReq placesBad "u1" =
      Except.error ErrorEnum.PARAM_NOT_VALID ∧
    createOrderPostState db0 1 foodsReq placesBad "u1" = db0 ∧
    getOrderStatus (createOrderPostState db0 1 foodsReq placesBad "u1") "u1" =
      Except.error ErrorEnum.ORDER_NOT_FOUND) :=
  ⟨by decide, by decide, by decide,
   createOrder_unresolved_name db0 1 foodsReq placesBad "u1"
     (by decide) (by decide) (by decide)⟩

/-- C4: every failure of createOrder rolls the transaction back before the
error is surfaced: an error result leaves the persistent store exactly as it
was (no partial state on any exit path), the surfaced error is one of
INTERNAL_SERVER_ERROR, PARAM_NOT_VALID or QUANTITIES_DO_NOT_MATCH, and a
nonexistent requester is surfaced as the server-side INTERNAL_SERVER_ERROR
rather than a client error. -/
theorem createOrder_error_rollback (db : DB) (rid : Nat)
    (foods : List OrderDetailCreateModel) (places : List OrderPlaceCreateModel)
    (newUuid : String) (e : ErrorEnum)
    (h : createOrder db rid foods places newUuid = Except.error e) :
    createOrderPostState db rid foods places newUuid = db ∧
    (e = ErrorEnum.INTERNAL_SERVER_ERROR ∨ e = ErrorEnum.PARAM_NOT_VALID ∨
     e = ErrorEnum.QUANTITIES_DO_NOT_MATCH) ∧
    (db.users.find? (fun u => u.id = rid) = none →
      e = ErrorEnum.INTERNAL_SERVER_ERROR) := by
  refine ⟨by rw [createOrderPostState, h], ?_, ?_⟩
  · rw [createOrder] at h
    cases hu : db.users.find? (fun u => u.id = rid) with
    | none => simp only [hu] at h; cases h; exact Or.inl rfl
    | some u =>
      simp only [hu] at h
      cases hd : buildOrderDetails db.foods newUuid foods with
      | error e1 =>
        simp only [hd] at h; cases h
        exact Or.inr (Or.inl (buildOrderDetails_error_eq hd))
      | ok rs =>
        obtain ⟨drows, sw⟩ := rs
        simp only [hd] at h
        cases hp : buildOrderPlaces db.places newUuid places with
        | error e2 =>
          simp only [hp] at h; cases h
          exact Or.inr (Or.inl (buildOrderPlaces_error_eq hp))
        | ok rs2 =>
          obtain ⟨prows, sd⟩ := rs2
          simp only [hp] at h
          by_cases hne : sd ≠ sw
          · rw [if_pos hne] at h; cases h; exact Or.inr (Or.inr rfl)
          · rw [if_neg hne] at h; cases h
  · intro hnone
    simp only [createOrder, hnone] at h
    cases h; rfl

/-- C4 witness: the failing request on the store with no user rolls back —
the post-call store is the input store — and surfaces
INTERNAL_SERVER_ERROR. -/
theorem createOrder_error_rollback_witness :
    createOrder dbNoUser 1 foodsReq3 [] "u1" =
      Except.error ErrorEnum.INTERNAL_SERVER_ERROR ∧
    (createOrderPostState dbNoUser 1 foodsReq3 [] "u1" = dbNoUser ∧
     (ErrorEnum.INTERNAL_SERVER_ERROR = ErrorEnum.INTERNAL_SERVER_ERROR ∨
      ErrorEnum.INTERNAL_SERVER_ERROR = ErrorEnum.PARAM_NOT_VALID ∨
      ErrorEnum.INTERNAL_SERVER_ERROR = ErrorEnum.QUANTITIES_DO_NOT_MATCH) ∧
     (dbNoUser.users.find? (fun u => u.id = 1) = none →
      ErrorEnum.INTERNAL_SERVER_ERROR = ErrorEnum.INTERNAL_SERVER_ERROR)) :=
  ⟨by rfl,
   createOrder_error_rollback dbNoUser 1 foodsReq3 [] "u1"
     ErrorEnum.INTERNAL_SERVER_ERROR (by rfl)⟩

/-- C5 counterexample: updateOrderStatus moves the order "o1" from RUNNING
back to CREATED — an operation of the system sets a stored status backward,
and RUNNING even regresses to the initial state. -/
theorem updateOrderStatus_backward_cex :
    getOrderStatus dbRunning "o1" = Except.ok "Running" ∧
    (updateOrderStatus dbRunning "o1" OrderStatus.CREATED).map
      (fun db2 => getOrderStatus db2 "o1") = some (Except.ok "Created") :=
  ⟨by rfl, by rfl⟩

/-- C5 amended: the forward-only progression CREATED → RUNNING →
(COMPLETED | FAILED) is not enforced by the code: updateOrderStatus
unconditionally overwrites an existing order's status with whatever value it
is given — backward moves included — trusting the external executor; it is
the only status mutator, since executeOrder always leaves the store
untouched and createOrder keeps every already stored order intact. -/
theorem updateOrderStatus_unguarded (db : DB) (uuid : String) (st : OrderStatus)
    (db2 : DB) (h : updateOrderStatus db uuid st = some db2) :
    getOrderStatus db2 uuid = Except.ok (statusLabel st) ∧
    (∀ u obs, ((executeOrder db u obs).2).1 = db) ∧
    (∀ rid foods places nu, ∀ o ∈ db.orders,
      o ∈ (createOrderPostState db rid foods places nu).orders) := by
  refine ⟨updateOrderStatus_readback h, fun u obs => executeOrder_db_eq db u obs,
          fun rid foods places nu o ho => ?_⟩
  rw [createOrderPostState]
  cases hres : createOrder db rid foods places nu with
  | error e => exact ho
  | ok dbc =>
    obtain ⟨uid, hord⟩ := createOrder_ok_orders hres
    rw [hord]
    exact List.mem_append_left _ ho

/-- C5 witness: applying the amended statement to the backward move
RUNNING → CREATED on the store dbRunning. -/
theorem updateOrderStatus_unguarded_witness :
    updateOrderStatus dbRunning "o1" OrderStatus.CREATED = some dbCreated ∧
    (getOrderStatus dbCreated "o1" = Except.ok (statusLabel OrderStatus.CREATED) ∧
     (∀ u obs, ((executeOrder dbRunning u obs).2).1 = dbRunning) ∧
     (∀ rid foods places nu, ∀ o ∈ dbRunning.orders,
       o ∈ (createOrderPostState dbRunning rid foods places nu).orders)) :=
  ⟨by rfl,
   updateOrderStatus_unguarded dbRunning "o1" OrderStatus.CREATED dbCreated (by rfl)⟩

/-- C6: executeOrder on an existing order whose status is not CREATED
returns ORDER_ALREADY_STARTED, publishes no notification event and leaves
the store unchanged, whatever the subscriber state of the channel. -/
theorem executeOrder_already_started (db : DB) (uuid : String) (obs : Bool)
    (order : Order)
    (hfind : db.orders.find? (fun o => o.uuid = uuid) = some order)
    (hst : order.status ≠ OrderStatus.CREATED) :
    executeOrder db uuid obs =
      (Except.error ErrorEnum.ORDER_ALREADY_STARTED, db, []) := by
  simp only [executeOrder, hfind]
  rw [if_pos hst]

/-- C6 witness: executing the RUNNING order "o1" with a subscribed channel
returns ORDER_ALREADY_STARTED and publishes nothing. -/
theorem executeOrder_already_started_witness :
    dbRunning.orders.find? (fun o => o.uuid = "o1") =
      some { uuid := "o1", status := OrderStatus.RUNNING, userId := 1 } ∧
    OrderStatus.RUNNING ≠ OrderStatus.CREATED ∧
    executeOrder dbRunning "o1" true =
      (Except.error ErrorEnum.ORDER_ALREADY_STARTED, dbRunning, []) :=
  ⟨by decide, by decide,
   executeOrder_already_started dbRunning "o1" true
     { uuid := "o1", status := OrderStatus.RUNNING, userId := 1 }
     (by decide) (by decide)⟩

/-- C7: executeOrder never mutates the store, hence no order's status: the
store component of its result is always the input store; for an existing
CREATED order, a call with zero subscribers returns WS_NOT_AVAILABLE and
publishes nothing, while a call with a subscriber succeeds and publishes
exactly one EXECUTE_ORDER message carrying the full order payload, after
which the order still reads back as "Created". -/
theorem executeOrder_frame (db : DB) (uuid : String) (order : Order)
    (hfind : db.orders.find? (fun o => o.uuid = uuid) = some order)
    (hst : order.status = OrderStatus.CREATED) :
    (∀ u obs, ((executeOrder db u obs).2).1 = db) ∧
    executeOrder db uuid false =
      (Except.error ErrorEnum.WS_NOT_AVAILABLE, db, []) ∧
    executeOrder db uuid true =
      (Except.ok (), db,
       [{ msgType := MessageType.EXECUTE_ORDER, orderUuid := order.uuid,
          payload := orderPayload db order }]) ∧
    getOrderStatus ((executeOrder db uuid true).2).1 uuid = Except.ok "Created" := by
  refine ⟨fun u obs => executeOrder_db_eq db u obs, ?_, ?_, ?_⟩
  · simp only [executeOrder, hfind]
    rw [if_neg (fun hne : order.status ≠ OrderStatus.CREATED => hne hst)]
    simp
  · simp only [executeOrder, hfind]
    rw [if_neg (fun hne : order.status ≠ OrderStatus.CREATED => hne hst)]
    simp
  · rw [executeOrder_db_eq db uuid true]
    simp only [getOrderStatus, hfind, hst]
    rfl

/-- C7 witness: the CREATED order "o1" on dbCreated — the no-subscriber call
fails with WS_NOT_AVAILABLE, the subscribed call publishes one EXECUTE_ORDER
event, and the status stays "Created" throughout. -/
theorem executeOrder_frame_witness :
    dbCreated.orders.find? (fun o => o.uuid = "o1") =
      some { uuid := "o1", status := OrderStatus.CREATED, userId := 1 } ∧
    ((∀ u obs, ((executeOrder dbCreated u obs).2).1 = dbCreated) ∧
     executeOrder dbCreated "o1" false =
       (Except.error ErrorEnum.WS_NOT_AVAILABLE, dbCreated, []) ∧
     executeOrder dbCreated "o1" true =
       (Except.ok (), dbCreated,
        [{ msgType := MessageType.EXECUTE_ORDER, orderUuid := "o1",
           payload := orderPayload dbCreated
             { uuid := "o1", status := OrderStatus.CREATED, userId := 1 } }]) ∧
     getOrderStatus ((executeOrder dbCreated "o1" true).2).1 "o1" =
       Except.ok "Created") :=
  ⟨by decide,
   executeOrder_frame dbCreated "o1"
     { uuid := "o1", status := OrderStatus.CREATED, userId := 1 }
     (by decide) (by decide)⟩

/-- C8: getOrderStatus is a pure read: a nonexistent uuid yields
ORDER_NOT_FOUND, an existing order yields the display label of its stored
status under the mapping CREATED to "Created", RUNNING to "Running",
COMPLETED to "Completed", FAILED to "Failed", and immediately after a
successful creation the new (previously fresh) uuid reads back as
"Created". -/
theorem getOrderStatus_spec (db : DB) (uuid : String) :
    (db.orders.find? (fun o => o.uuid = uuid) = none →
      getOrderStatus db uuid = Except.error ErrorEnum.ORDER_NOT_FOUND) ∧
    (∀ order, db.orders.find? (fun o => o.uuid = uuid) = some order →
      getOrderStatus db uuid = Except.ok (statusLabel order.status)) ∧
    (statusLabel OrderStatus.CREATED = "Created" ∧
     statusLabel OrderStatus.RUNNING = "Running" ∧
     statusLabel OrderStatus.COMPLETED = "Completed" ∧
     statusLabel OrderStatus.FAILED = "Failed") ∧
    (∀ rid foods places db2, (∀ o ∈ db.orders, o.uuid ≠ uuid) →
      createOrder db rid foods places uuid = Except.ok db2 →
      getOrderStatus db2 uuid = Except.ok "Created") := by
  refine ⟨fun hnone => by simp only [getOrderStatus, hnone],
          fun order hsome => by simp only [getOrderStatus, hsome],
          ⟨rfl, rfl, rfl, rfl⟩,
          fun rid foods places db2 hfreshAll hok => ?_⟩
  obtain ⟨uid, hord⟩ := createOrder_ok_orders hok
  have hfind : db2.orders.find? (fun o => o.uuid = uuid) =
      some { uuid := uuid, status := OrderStatus.CREATED, userId := uid } := by
    rw [hord, List.find?_append]
    have h1 : db.orders.find? (fun o => o.uuid = uuid) = none :=
      List.find?_eq_none.mpr (fun o ho => by simp [hfreshAll o ho])
    rw [h1]
    simp [List.find?_cons]
  simp only [getOrderStatus, hfind]
  rfl

/-- C8 witness: the empty order table of db0 makes any uuid read back as
ORDER_NOT_FOUND. -/
theorem getOrderStatus_spec_witness :
    db0.orders.find? (fun o => o.uuid = "missing") = none ∧
    getOrderStatus db0 "missing" = Except.error ErrorEnum.ORDER_NOT_FOUND :=
  ⟨by decide, (getOrderStatus_spec db0 "missing").1 (by decide)⟩

/-- C9: a creation request with an existing requester and both item lists
empty succeeds — both quantity sums are 0, so the balance check passes — and
persists exactly one Order in status CREATED owned by the requester, with
zero OrderDetail rows and zero OrderPlace rows. -/
theorem createOrder_empty_lists (db : DB) (rid : Nat) (newUuid : String)
    (huser : (db.users.find? (fun u => u.id = rid)).isSome) :
    createOrder db rid [] [] newUuid =
      Except.ok { db with orders := db.orders ++
        [{ uuid := newUuid, status := OrderStatus.CREATED, userId := rid }] } := by
  obtain ⟨u, hu⟩ := Option.isSome_iff_exists.mp huser
  have huid : u.id = rid :=
    of_decide_eq_true (@List.find?_some User (fun x => decide (x.id = rid)) u db.users hu)
  simp only [createOrder, hu, buildOrderDetails, buildOrderPlaces, huid]
  rw [if_neg (fun hne : (0 : Int) ≠ 0 => hne rfl)]
  simp

/-- C9 witness: the empty request of user 1 on db0 persists exactly the bare
CREATED order. -/
theorem createOrder_empty_lists_witness :
    (db0.users.find? (fun u => u.id = 1)).isSome ∧
    createOrder db0 1 [] [] "u1" =
      Except.ok { db0 with orders := db0.orders ++
        [{ uuid := "u1", status := OrderStatus.CREATED, userId := 1 }] } :=
  ⟨by decide, createOrder_empty_lists db0 1 "u1" (by decide)⟩

/-- C10: updateOrderStatus presupposes the order exists — a nonexistent uuid
makes the lookup yield null, and the non-null assertion dereference throws
(modelled as none) — while for an existing uuid it overwrites exactly that
order's status with the given value: the new status reads back, every other
table is untouched, the order table keeps its length, and every other order
row is still present. -/
theorem updateOrderStatus_spec (db : DB) (uuid : String) (st : OrderStatus) :
    (db.orders.find? (fun o => o.uuid = uuid) = none →
      updateOrderStatus db uuid st = none) ∧
    (∀ order, db.orders.find? (fun o => o.uuid = uuid) = some order →
      ∃ db2, updateOrderStatus db uuid st = some db2 ∧
        getOrderStatus db2 uuid = Except.ok (statusLabel st) ∧
        db2.users = db.users ∧ db2.foods = db.foods ∧ db2.places = db.places ∧
        db2.orderDetails = db.orderDetails ∧ db2.orderPlaces = db.orderPlaces ∧
        db2.orders.length = db.orders.length ∧
        (∀ o ∈ db.orders, o.uuid ≠ uuid → o ∈ db2.orders)) := by
  constructor
  · intro hnone
    simp only [updateOrderStatus, hnone]
  · intro order hsome
    have hupd : updateOrderStatus db uuid st =
        some { db with orders := (db.orders.map
          (fun o => if o.uuid = uuid then { o with status := st } else o)) } := by
      simp only [updateOrderStatus, hsome]
    refine ⟨_, hupd, updateOrderStatus_readback hupd, rfl, rfl, rfl, rfl, rfl,
            by simp, fun o ho hne => ?_⟩
    exact List.mem_map.mpr ⟨o, ho, by simp [hne]⟩

/-- C10 witness: the existing order "o1" of dbRunning is overwritten to
COMPLETED, which then reads back as "Completed" with all other tables
untouched. -/
theorem updateOrderStatus_spec_witness :
    dbRunning.orders.find? (fun o => o.uuid = "o1") =
      some { uuid := "o1", status := OrderStatus.RUNNING, userId := 1 } ∧
    (∃ db2, updateOrderStatus dbRunning "o1" OrderStatus.COMPLETED = some db2 ∧
      getOrderStatus db2 "o1" = Except.ok (statusLabel OrderStatus.COMPLETED) ∧
      db2.users = dbRunning.users ∧ db2.foods = dbRunning.foods ∧
      db2.places = dbRunning.places ∧
      db2.orderDetails = dbRunning.orderDetails ∧
      db2.orderPlaces = dbRunning.orderPlaces ∧
      db2.orders.length = dbRunning.orders.length ∧
      (∀ o ∈ dbRunning.orders, o.uuid ≠ "o1" → o ∈ db2.orders)) :=
  ⟨by decide,
   (updateOrderStatus_spec dbRunning "o1" OrderStatus.COMPLETED).2
     { uuid := "o1", status := OrderStatus.RUNNING, userId := 1 } (by decide)⟩

end PetFood
